import Mathlib

/-!
Verification development for the AutoGLMUI repository.

Shallow embedding of the connection-lifecycle and response-distribution
core found in src/src/websocket_client.py (class WebSocketClient) and
src/src/app.py (class AutoGLMUI and its HTTP endpoints).

Python integers are modelled as Nat where the source only ever holds
non-negative values (timestamps, counters, lengths).  The JSON library
(json.loads / json.dumps) is external to the repository; an inbound
message is therefore modelled as its raw text together with the outcome
of the library parse (success with the extracted msg_type and a truthy
conversation_id when present, or a JSONDecodeError).  asyncio queues are
modelled with their maxsize discipline: put_nowait fails exactly when
maxsize is positive and the queue already holds maxsize items.
-/

namespace AutoGLMUI

/-- ConnectionStatus enum of websocket_client.py. -/
inductive ConnectionStatus where
  | disconnected
  | connecting
  | connected
  | error
deriving DecidableEq, Repr

/-- The .value attribute of the Python enum members. -/
def ConnectionStatus.value : ConnectionStatus → String
  | .disconnected => "disconnected"
  | .connecting => "connecting"
  | .connected => "connected"
  | .error => "error"

/--
State of a WebSocketClient instance.  wsPresent models
(self.ws is not None); sockPresent and sockConnected model the
transport-level self.ws.sock and self.ws.sock.connected flags;
stopEvent models self._stop_event.is_set(); conversationId models
self._conversation_id (set from inbound server_session messages).
-/
structure WSClient where
  status : ConnectionStatus
  wsPresent : Bool
  sockPresent : Bool
  sockConnected : Bool
  reconnectAttempts : Nat
  stopEvent : Bool
  conversationId : Option String
deriving DecidableEq, Repr

/-- WebSocketClient.is_connected:
status == CONNECTED and self.ws and self.ws.sock and self.ws.sock.connected. -/
def is_connected (c : WSClient) : Bool :=
  (c.status == ConnectionStatus.connected) && c.wsPresent && c.sockPresent
    && c.sockConnected

/-- Outcome of the underlying transport call self.ws.send(message):
either it returns normally or it raises. -/
inductive TransportSend where
  | ok
  | raises
deriving DecidableEq, Repr

/--
WebSocketClient.send_message.  Returns (result, attempted) where result
is the boolean the method returns and attempted records whether
self.ws.send was invoked.  When is_connected is false the method logs
and returns False without touching the transport; otherwise it calls
send, returning True on success and False when the transport raises.
-/
def send_message (c : WSClient) (t : TransportSend) : Bool × Bool :=
  if is_connected c then
    match t with
    | .ok => (true, true)
    | .raises => (false, true)
  else
    (false, false)

/-- WebSocketClient.on_open: status := CONNECTED, reset the reconnect
attempt counter to 0 (both under the connection lock). -/
def on_open (c : WSClient) : WSClient :=
  { c with status := ConnectionStatus.connected, reconnectAttempts := 0 }

/-- WebSocketClient.on_error: status := ERROR (the error callback is then
invoked by the caller). -/
def on_error (c : WSClient) : WSClient :=
  { c with status := ConnectionStatus.error }

/-- The backoff formula min(2 ** attempt, 30) that appears both in
WebSocketClient._attempt_reconnect and in AutoGLMUI._connect_with_retry. -/
def backoffDelay (attempt : Nat) : Nat :=
  min (2 ^ attempt) 30

/--
Delay computation of WebSocketClient._attempt_reconnect: the attempt
counter is incremented first; if the incremented value exceeds
max_reconnect_attempts the method returns without sleeping (none),
otherwise it sleeps min(2 ** attempt, 30) seconds with attempt being the
incremented counter value.
-/
def attempt_reconnect_delay (c : WSClient) (maxAttempts : Nat) : Option Nat :=
  let attempt := c.reconnectAttempts + 1
  if maxAttempts < attempt then none
  else some (backoffDelay attempt)

/--
Environment for WebSocketClient.connect: whether constructing the
WebSocketApp (or starting its thread) raises, what
_wait_for_connection returns after polling is_connected for up to 10
seconds, and the client state observable when connect returns (the
transport callbacks run concurrently on the spawned thread and are
abstracted by this field).
-/
structure DialEnv where
  dialRaises : Bool
  waitResult : Bool
  stateAfterRun : WSClient
deriving Repr

/-- Result of WebSocketClient.connect: the returned boolean, the client
state on return, and how many receive threads the call spawned. -/
structure ConnectResult where
  returned : Bool
  state : WSClient
  threadsSpawned : Nat
deriving DecidableEq, Repr

/--
WebSocketClient.connect.  Under the connection lock: if status is
already CONNECTING or CONNECTED it logs and returns is_connected
without any further effect; otherwise it sets status := CONNECTING,
clears the stop event, builds the WebSocketApp, spawns the run_forever
thread and returns _wait_for_connection(); if the dial raises it sets
status := ERROR and returns False.
-/
def connect (c : WSClient) (env : DialEnv) : ConnectResult :=
  if c.status = ConnectionStatus.connecting ∨ c.status = ConnectionStatus.connected then
    ⟨is_connected c, c, 0⟩
  else
    let c1 : WSClient := { c with status := ConnectionStatus.connecting, stopEvent := false }
    if env.dialRaises then
      ⟨false, { c1 with status := ConnectionStatus.error }, 0⟩
    else
      ⟨env.waitResult, env.stateAfterRun, 1⟩

/--
A stored response record built in AutoGLMUI._handle_response:
message is the raw text, timestamp the receipt time, id the value
len(self.recent_responses) at creation time, msg_type the classified
kind, and hasParsedData records whether parsed_data is non-null
(msg_data on a JSON parse success, None for non-JSON input).
-/
structure ResponseRecord where
  message : String
  timestamp : Nat
  id : Nat
  msg_type : String
  hasParsedData : Bool
deriving DecidableEq, Repr

/--
Outcome of json.loads on an inbound message: ok carries
msg_data.get("msg_type", "unknown") and (some v) exactly when
msg_data.get("conversation_id") is truthy with value v; jsonError is a
JSONDecodeError.
-/
inductive ParseResult where
  | ok (msg_type : String) (conversationId : Option String)
  | jsonError
deriving DecidableEq, Repr

/-- The value json.dumps serializes into a consumer queue:
the dict with "type": "response" and "data": response_data. -/
structure QueueItem where
  type : String
  data : ResponseRecord
deriving DecidableEq, Repr

/-- An asyncio.Queue of serialized records.  maxsize 0 means unbounded
(the default used by send_task_stream). -/
structure ConsumerQueue where
  maxsize : Nat
  items : List QueueItem
deriving DecidableEq, Repr

/-- asyncio.Queue.full(): true when maxsize is positive and qsize has
reached it. -/
def queue_full (q : ConsumerQueue) : Bool :=
  0 < q.maxsize && q.maxsize ≤ q.items.length

/-- asyncio.Queue.put_nowait as used in _handle_response: on a full
queue the QueueFull branch logs and drops the item, leaving the queue
unchanged; otherwise the item is appended. -/
def put_nowait (q : ConsumerQueue) (x : QueueItem) : ConsumerQueue :=
  if queue_full q then q else { q with items := q.items ++ [x] }

/--
State of the AutoGLMUI facade: the optional WebSocket client,
recent_responses, max_responses, _last_heartbeat and the
response_queues registry (task_id to queue, modelled as an association
list).
-/
structure AppState where
  ws_client : Option WSClient
  recent_responses : List ResponseRecord
  max_responses : Nat
  last_heartbeat : Option Nat
  response_queues : List (String × ConsumerQueue)
deriving DecidableEq, Repr

/-- AutoGLMUI.__init__: no client, empty history, capacity 100, no
heartbeat, no streaming queues. -/
def initialAppState : AppState :=
  { ws_client := none
    recent_responses := []
    max_responses := 100
    last_heartbeat := none
    response_queues := [] }

/--
The tail of AutoGLMUI._handle_response shared by every non-heartbeat
message: append response_data to recent_responses, pop the oldest
record when the length exceeds max_responses, then for every
registered streaming queue attempt a non-blocking put_nowait of the
serialized record.
-/
def storeAndFanOut (s : AppState) (rd : ResponseRecord) : AppState :=
  let hist := s.recent_responses ++ [rd]
  let hist := if s.max_responses < hist.length then hist.drop 1 else hist
  { s with
    recent_responses := hist
    response_queues :=
      s.response_queues.map fun p => (p.1, put_nowait p.2 ⟨"response", rd⟩) }

/-- An inbound WebSocket message as seen by _handle_response: its raw
text, the json.loads outcome, and the receipt timestamp time.time(). -/
structure InboundEvent where
  raw : String
  parse : ParseResult
  timestamp : Nat
deriving DecidableEq, Repr

/-- The response_data dict _handle_response builds for an event, with
id = len(self.recent_responses) at creation time. -/
def recordOf (s : AppState) (ev : InboundEvent) : ResponseRecord :=
  match ev.parse with
  | .ok t _ =>
      { message := ev.raw, timestamp := ev.timestamp
        id := s.recent_responses.length, msg_type := t, hasParsedData := true }
  | .jsonError =>
      { message := ev.raw, timestamp := ev.timestamp
        id := s.recent_responses.length, msg_type := "raw", hasParsedData := false }

/--
AutoGLMUI._handle_response.  Records the receipt time in
_last_heartbeat, builds response_data; a server_heartbeat message
returns at once (nothing stored, nothing fanned out); a server_session
message with a present client and truthy conversation_id updates the
client conversation id; every non-heartbeat message (including
non-JSON input, stored with msg_type "raw" and null parsed_data) is
appended to history and fanned out to the streaming queues.
-/
def handle_response (s : AppState) (ev : InboundEvent) : AppState :=
  let s1 := { s with last_heartbeat := some ev.timestamp }
  match ev.parse with
  | .ok msgType conv =>
      let rd : ResponseRecord :=
        { message := ev.raw, timestamp := ev.timestamp
          id := s1.recent_responses.length, msg_type := msgType, hasParsedData := true }
      if msgType = "server_heartbeat" then s1
      else
        let s2 :=
          if msgType = "server_session" then
            match s1.ws_client, conv with
            | some c, some cid =>
                { s1 with ws_client := some { c with conversationId := some cid } }
            | _, _ => s1
          else s1
        storeAndFanOut s2 rd
  | .jsonError =>
      let rd : ResponseRecord :=
        { message := ev.raw, timestamp := ev.timestamp
          id := s1.recent_responses.length, msg_type := "raw", hasParsedData := false }
      storeAndFanOut s1 rd

/-- Feeding a sequence of inbound messages through _handle_response. -/
def ingestAll (s : AppState) (evs : List InboundEvent) : AppState :=
  evs.foldl handle_response s

/-- Whether an inbound message is classified as a heartbeat by
_handle_response (JSON with msg_type "server_heartbeat"). -/
def isHeartbeat (ev : InboundEvent) : Bool :=
  match ev.parse with
  | .ok t _ => t == "server_heartbeat"
  | .jsonError => false

/-- The raw texts of the messages of a sequence that _handle_response
actually stores (everything but heartbeats), in arrival order. -/
def effectiveRaws (evs : List InboundEvent) : List String :=
  (evs.filter fun ev => !(isHeartbeat ev)).map (·.raw)

/-- AutoGLMUI._handle_error: logs and clears _last_heartbeat. -/
def handle_error (s : AppState) : AppState :=
  { s with last_heartbeat := none }

/--
AutoGLMUI.get_recent_responses(limit) returns
self.recent_responses[-limit:].  For a positive limit the Python slice
is the suffix of length min(limit, len); for limit = 0 the slice index
-0 equals 0, so the slice is the entire list.
-/
def get_recent_responses (s : AppState) (limit : Nat) : List ResponseRecord :=
  if limit = 0 then s.recent_responses
  else s.recent_responses.drop (s.recent_responses.length - limit)

/-- The StatusResponse model returned by AutoGLMUI.get_status. -/
structure StatusResponse where
  connected : Bool
  status : String
  recent_responses : Nat
  last_heartbeat : Option Nat
deriving DecidableEq, Repr

/-- AutoGLMUI.get_status: connected = bool(ws_client and
ws_client.is_connected); status = ws_client.status.value or
"disconnected" when there is no client. -/
def get_status (s : AppState) : StatusResponse :=
  { connected := match s.ws_client with | none => false | some c => is_connected c
    status := match s.ws_client with | none => "disconnected" | some c => c.status.value
    recent_responses := s.recent_responses.length
    last_heartbeat := s.last_heartbeat }

/--
Observable trace of AutoGLMUI.send_task: the HTTP result (an
HTTPException status code, or the TaskResponse fields success, message
and task_id), whether create_message was called, and whether a
transport-level send was attempted.
-/
structure SendTaskTrace where
  result : Except Nat (Bool × String × Option String)
  messageCreated : Bool
  transportSendAttempted : Bool
deriving Repr

/--
AutoGLMUI.send_task.  If the client is absent or not is_connected it
raises HTTPException 503 before any message is created or sent;
otherwise it builds the message and calls send_message, answering
TaskResponse(success=True, task_id=str(len(recent_responses))) on
success and an HTTPException 500 on failure.
-/
def send_task (s : AppState) (task : String) (t : TransportSend) : SendTaskTrace :=
  match s.ws_client with
  | none => ⟨Except.error 503, false, false⟩
  | some c =>
      if is_connected c then
        let r := send_message c t
        if r.1 then
          ⟨Except.ok (true, "Task sent successfully",
              some (toString s.recent_responses.length)), true, r.2⟩
        else
          ⟨Except.error 500, true, r.2⟩
      else ⟨Except.error 503, false, false⟩

/--
History invariant coupling the facade state with the raw texts E of
the non-heartbeat messages ingested so far: capacity is 100, the
history holds the last min(len E, 100) of them in arrival order, every
stored id is at most the history length, and the stored ids are
non-decreasing.
-/
def HistInv (s : AppState) (E : List String) : Prop :=
  s.max_responses = 100 ∧
  s.recent_responses.length = min E.length 100 ∧
  s.recent_responses.map (·.message) = E.drop (E.length - 100) ∧
  (∀ r ∈ s.recent_responses, r.id ≤ s.recent_responses.length) ∧
  List.Chain' (fun a b => a.id ≤ b.id) s.recent_responses

/-- A heartbeat message registered by the codec abstraction. -/
def hbEvent : InboundEvent :=
  ⟨"hb", ParseResult.ok "server_heartbeat" none, 7⟩

/-- A facade state with two registered streaming consumers (one with a
bounded queue of size 1). -/
def hubState : AppState :=
  { ws_client := none
    recent_responses := []
    max_responses := 100
    last_heartbeat := none
    response_queues := [("t1", ⟨0, []⟩), ("t2", ⟨1, []⟩)] }

/-- A three-record history used to exercise get_recent_responses. -/
def threeState : AppState :=
  { ws_client := none
    recent_responses :=
      [⟨"a", 1, 0, "t", true⟩, ⟨"b", 2, 1, "t", true⟩, ⟨"c", 3, 2, "t", true⟩]
    max_responses := 100
    last_heartbeat := none
    response_queues := [] }

/-- A facade state whose second streaming queue is already full
(maxsize 1 holding one item). -/
def fullQueueState : AppState :=
  { ws_client := none
    recent_responses := []
    max_responses := 100
    last_heartbeat := none
    response_queues :=
      [("a", ⟨0, []⟩), ("b", ⟨1, [⟨"response", ⟨"old", 0, 0, "t", true⟩⟩]⟩)] }

/-- An inbound agent_response message. -/
def taskEvent : InboundEvent :=
  ⟨"m1", ParseResult.ok "agent_response" none, 9⟩

/-- A disconnected client value. -/
def idleClient : WSClient :=
  ⟨ConnectionStatus.disconnected, false, false, false, 0, false, none⟩

/-- A client value whose status is Connecting. -/
def connectingClient : WSClient :=
  ⟨ConnectionStatus.connecting, false, false, false, 0, false, none⟩

/-- A dial environment for exercising connect. -/
def someDialEnv : DialEnv :=
  ⟨false, true, ⟨ConnectionStatus.connected, true, true, true, 0, false, none⟩⟩

theorem handle_response_heartbeat (s : AppState) (ev : InboundEvent)
    (h : isHeartbeat ev = true) :
    handle_response s ev = { s with last_heartbeat := some ev.timestamp } := by
  cases hp : ev.parse with
  | jsonError => simp [isHeartbeat, hp] at h
  | ok t conv =>
    have ht : t = "server_heartbeat" := by simpa [isHeartbeat, hp] using h
    simp [handle_response, hp, ht]

/-- C2: ingesting any sequence of messages classified as heartbeats
appends nothing to the response history and enqueues nothing into any
registered consumer queue, for any starting facade state. -/
theorem heartbeats_never_stored_or_fanned_out (s : AppState) (evs : List InboundEvent)
    (h : ∀ ev ∈ evs, isHeartbeat ev = true) :
    (ingestAll s evs).recent_responses = s.recent_responses ∧
    (ingestAll s evs).response_queues = s.response_queues := by
  induction evs generalizing s with
  | nil => exact ⟨rfl, rfl⟩
  | cons ev evs ih =>
    have hev : isHeartbeat ev = true := h ev (List.mem_cons_self _ _)
    have hrest : ∀ e ∈ evs, isHeartbeat e = true := fun e he => h e (List.mem_cons_of_mem _ he)
    have hstep := handle_response_heartbeat s ev hev
    have htail := ih { s with last_heartbeat := some ev.timestamp } hrest
    simpa [ingestAll, hstep] using htail

/-- Witness for C2: two heartbeats ingested into a state with two
registered consumers leave history and both queues untouched. -/
theorem heartbeats_never_stored_witness :
    (ingestAll hubState [hbEvent, hbEvent]).recent_responses = hubState.recent_responses ∧
    (ingestAll hubState [hbEvent, hbEvent]).response_queues = hubState.response_queues :=
  heartbeats_never_stored_or_fanned_out hubState [hbEvent, hbEvent] (by decide)

/-- C3: send_message fails fast, returning false with no transport send
attempted, whenever the status is not Connected (so for Disconnected,
Connecting and Error alike); and a successful send requires status
Connected together with the socket-level connected flag. -/
theorem send_message_requires_connected :
    (∀ (c : WSClient) (t : TransportSend), c.status ≠ ConnectionStatus.connected →
      send_message c t = (false, false)) ∧
    (∀ (c : WSClient) (t : TransportSend), (send_message c t).1 = true →
      c.status = ConnectionStatus.connected ∧ c.sockConnected = true) := by
  refine ⟨fun c t h => ?_, fun c t h => ?_⟩
  · have hic : is_connected c = false := by
      unfold is_connected
      cases hst : c.status <;> simp_all
    simp [send_message, hic]
  · by_cases hc : is_connected c
    · have hc2 := hc
      simp only [is_connected, Bool.and_eq_true, beq_iff_eq] at hc2
      exact ⟨hc2.1.1.1, hc2.2⟩
    · simp [send_message, hc] at h

/-- Witness for C3: a Disconnected client refuses a send even when the
transport itself would have succeeded. -/
theorem send_message_requires_connected_witness :
    send_message idleClient TransportSend.ok = (false, false) :=
  send_message_requires_connected.1 idleClient TransportSend.ok (by decide)

/-- C4: send_task raises HTTP 503 whenever the client is absent or not
connected, creating no message and attempting no transport send, for
every instruction string. -/
theorem send_task_rejects_when_unavailable (s : AppState) (task : String) (t : TransportSend)
    (h : ∀ c, s.ws_client = some c → is_connected c = false) :
    send_task s task t = ⟨Except.error 503, false, false⟩ := by
  cases hws : s.ws_client with
  | none => simp [send_task, hws]
  | some c => simp [send_task, hws, h c hws]

/-- Witness for C4: submitting on the freshly constructed facade (no
client yet) yields the 503 rejection with no encode and no send. -/
theorem send_task_rejects_witness :
    send_task initialAppState "open the browser" TransportSend.ok
      = ⟨Except.error 503, false, false⟩ :=
  send_task_rejects_when_unavailable initialAppState "open the browser" TransportSend.ok
    (by intro c hc; simp [initialAppState] at hc)

/-- C5: the open callback resets the reconnect attempt counter to 0 (and
sets status Connected); before a reset, the sleep before a reconnection
attempt is exactly min(2 ^ attempt, 30) seconds of the attempt number,
and that formula yields the delays 1, 2, 4, 8, 16, 30, 30 for attempt
numbers 0 through 6. -/
theorem reconnect_reset_and_backoff :
    (∀ c : WSClient,
      (on_open c).reconnectAttempts = 0 ∧ (on_open c).status = ConnectionStatus.connected) ∧
    (∀ (c : WSClient) (maxAttempts : Nat), c.reconnectAttempts + 1 ≤ maxAttempts →
      attempt_reconnect_delay c maxAttempts = some (backoffDelay (c.reconnectAttempts + 1))) ∧
    (List.range 7).map backoffDelay = [1, 2, 4, 8, 16, 30, 30] := by
  refine ⟨fun c => ⟨rfl, rfl⟩, fun c maxAttempts h => ?_, by decide⟩
  simp only [attempt_reconnect_delay]
  rw [if_neg (Nat.not_lt.mpr h)]

/-- Witness for C5: with the default max of 5 attempts, a client on
attempt counter 0 sleeps backoffDelay 1 before its next reconnect. -/
theorem reconnect_backoff_witness :
    attempt_reconnect_delay idleClient 5 = some (backoffDelay 1) :=
  reconnect_reset_and_backoff.2.1 idleClient 5 (by decide)

/-- C7: calling connect while the status is already Connecting or
Connected returns the current is_connected boolean, leaves the client
state unchanged and spawns no receive thread. -/
theorem connect_noop_when_active (c : WSClient) (env : DialEnv)
    (h : c.status = ConnectionStatus.connecting ∨ c.status = ConnectionStatus.connected) :
    connect c env = ⟨is_connected c, c, 0⟩ := by
  simp [connect, h]

/-- Witness for C7: connect on a Connecting client is a no-op. -/
theorem connect_noop_witness :
    connect connectingClient someDialEnv = ⟨is_connected connectingClient, connectingClient, 0⟩ :=
  connect_noop_when_active connectingClient someDialEnv (Or.inl rfl)

/-- C10: the facade error callback clears _last_heartbeat (so a
subsequent get_status reports last_heartbeat null) and modifies no other
facade field; the remaining status fields are unchanged. -/
theorem error_callback_clears_last_heartbeat (s : AppState) :
    (handle_error s).last_heartbeat = none ∧
    (get_status (handle_error s)).last_heartbeat = none ∧
    (handle_error s).ws_client = s.ws_client ∧
    (handle_error s).recent_responses = s.recent_responses ∧
    (handle_error s).max_responses = s.max_responses ∧
    (handle_error s).response_queues = s.response_queues ∧
    (get_status (handle_error s)).connected = (get_status s).connected ∧
    (get_status (handle_error s)).status = (get_status s).status ∧
    (get_status (handle_error s)).recent_responses = (get_status s).recent_responses :=
  ⟨rfl, rfl, rfl, rfl, rfl, rfl, rfl, rfl, rfl⟩

theorem recordOf_message (s : AppState) (ev : InboundEvent) :
    (recordOf s ev).message = ev.raw := by
  cases hp : ev.parse <;> simp [recordOf, hp]

theorem recordOf_id (s : AppState) (ev : InboundEvent) :
    (recordOf s ev).id = s.recent_responses.length := by
  cases hp : ev.parse <;> simp [recordOf, hp]

/-- Any non-heartbeat message is processed by the shared store-and-fan-out
tail, applied to a state that differs from the input at most in
_last_heartbeat and the client conversation id. -/
theorem handle_response_non_heartbeat (s : AppState) (ev : InboundEvent)
    (hhb : isHeartbeat ev = false) :
    ∃ s2 : AppState,
      handle_response s ev = storeAndFanOut s2 (recordOf s ev) ∧
      s2.recent_responses = s.recent_responses ∧
      s2.response_queues = s.response_queues ∧
      s2.max_responses = s.max_responses := by
  cases hp : ev.parse with
  | jsonError =>
    exact ⟨{ s with last_heartbeat := some ev.timestamp },
      by simp [handle_response, hp, recordOf], rfl, rfl, rfl⟩
  | ok t conv =>
    have ht : ¬ t = "server_heartbeat" := by simpa [isHeartbeat, hp] using hhb
    by_cases hs : t = "server_session"
    · cases hws : s.ws_client with
      | none =>
        exact ⟨{ s with last_heartbeat := some ev.timestamp },
          by simp [handle_response, hp, ht, hs, hws, recordOf], rfl, rfl, rfl⟩
      | some c =>
        cases hconv : conv with
        | none =>
          exact ⟨{ s with last_heartbeat := some ev.timestamp },
            by simp [handle_response, hp, ht, hs, hws, hconv, recordOf], rfl, rfl, rfl⟩
        | some cid =>
          refine ⟨{ s with
              last_heartbeat := some ev.timestamp
              ws_client := some { c with conversationId := some cid } },
            ?_, rfl, rfl, rfl⟩
          simp [handle_response, hp, ht, hs, hws, hconv, recordOf]
    · exact ⟨{ s with last_heartbeat := some ev.timestamp },
        by simp [handle_response, hp, ht, hs, recordOf], rfl, rfl, rfl⟩

/-- The record passed to storeAndFanOut always ends the history list,
whether or not the oldest record was evicted. -/
theorem storeAndFanOut_getLast (s : AppState) (rd : ResponseRecord)
    (hmax : 1 ≤ s.max_responses) :
    (storeAndFanOut s rd).recent_responses.getLast? = some rd := by
  simp only [storeAndFanOut]
  by_cases hlen : s.max_responses < (s.recent_responses ++ [rd]).length
  · have h1 : 1 ≤ s.recent_responses.length := by
      rw [List.length_append, List.length_singleton] at hlen
      omega
    simp only [if_pos hlen]
    rw [List.drop_append_of_le_length h1, List.getLast?_concat]
  · simp only [if_neg hlen]
    exact List.getLast?_concat _

theorem storeAndFanOut_queues (s : AppState) (rd : ResponseRecord) :
    (storeAndFanOut s rd).response_queues
      = s.response_queues.map fun p => (p.1, put_nowait p.2 ⟨"response", rd⟩) :=
  rfl

/-- C6: one ingest of a non-heartbeat message appends the record to the
history (it becomes the last stored record) and attempts the same
serialized record into every registered consumer queue; a queue that is
not full receives its copy appended, while a full queue is left
unchanged — only that consumer misses the record. -/
theorem ingest_fan_out_isolation (s : AppState) (ev : InboundEvent)
    (hhb : isHeartbeat ev = false) (hmax : s.max_responses = 100) :
    (handle_response s ev).recent_responses.getLast? = some (recordOf s ev) ∧
    (handle_response s ev).response_queues
      = s.response_queues.map
          (fun p => (p.1, put_nowait p.2 ⟨"response", recordOf s ev⟩)) ∧
    (∀ p ∈ s.response_queues, queue_full p.2 = false →
      put_nowait p.2 ⟨"response", recordOf s ev⟩
        = { p.2 with items := p.2.items ++ [⟨"response", recordOf s ev⟩] }) ∧
    (∀ p ∈ s.response_queues, queue_full p.2 = true →
      put_nowait p.2 ⟨"response", recordOf s ev⟩ = p.2) := by
  obtain ⟨s2, heq, hr, hq, hm⟩ := handle_response_non_heartbeat s ev hhb
  refine ⟨?_, ?_, ?_, ?_⟩
  · rw [heq]
    exact storeAndFanOut_getLast s2 (recordOf s ev) (by omega)
  · rw [heq, storeAndFanOut_queues, hq]
  · intro p _ hfull
    simp [put_nowait, hfull]
  · intro p _ hfull
    simp [put_nowait, hfull]

/-- Witness for C6: ingesting an agent_response into a state with one
unbounded queue and one full queue of size 1. -/
theorem ingest_fan_out_witness :
    (handle_response fullQueueState taskEvent).recent_responses.getLast?
      = some (recordOf fullQueueState taskEvent) ∧
    (handle_response fullQueueState taskEvent).response_queues
      = fullQueueState.response_queues.map
          (fun p => (p.1, put_nowait p.2 ⟨"response", recordOf fullQueueState taskEvent⟩)) ∧
    (∀ p ∈ fullQueueState.response_queues, queue_full p.2 = false →
      put_nowait p.2 ⟨"response", recordOf fullQueueState taskEvent⟩
        = { p.2 with items := p.2.items ++ [⟨"response", recordOf fullQueueState taskEvent⟩] }) ∧
    (∀ p ∈ fullQueueState.response_queues, queue_full p.2 = true →
      put_nowait p.2 ⟨"response", recordOf fullQueueState taskEvent⟩ = p.2) :=
  ingest_fan_out_isolation fullQueueState taskEvent (by decide) (by decide)

/-- C8: a message that is not valid JSON is handled without any fault:
it is stored as a record with classified kind "raw" and null parsed
payload, appended to the history like any other non-heartbeat record,
and fanned out to every registered consumer queue. -/
theorem non_json_downgraded_to_raw (s : AppState) (raw : String) (ts : Nat)
    (hmax : s.max_responses = 100) :
    (recordOf s ⟨raw, ParseResult.jsonError, ts⟩).msg_type = "raw" ∧
    (recordOf s ⟨raw, ParseResult.jsonError, ts⟩).hasParsedData = false ∧
    (recordOf s ⟨raw, ParseResult.jsonError, ts⟩).message = raw ∧
    (handle_response s ⟨raw, ParseResult.jsonError, ts⟩).recent_responses.getLast?
      = some (recordOf s ⟨raw, ParseResult.jsonError, ts⟩) ∧
    (handle_response s ⟨raw, ParseResult.jsonError, ts⟩).response_queues
      = s.response_queues.map
          (fun p =>
            (p.1, put_nowait p.2 ⟨"response", recordOf s ⟨raw, ParseResult.jsonError, ts⟩⟩)) := by
  obtain ⟨s2, heq, hr, hq, hm⟩ :=
    handle_response_non_heartbeat s ⟨raw, ParseResult.jsonError, ts⟩ rfl
  refine ⟨rfl, rfl, rfl, ?_, ?_⟩
  · rw [heq]
    exact storeAndFanOut_getLast s2 _ (by omega)
  · rw [heq, storeAndFanOut_queues, hq]

/-- Witness for C8: a concrete non-JSON message ingested into a state
with two registered consumers. -/
theorem non_json_downgraded_witness :
    (recordOf hubState ⟨"oops", ParseResult.jsonError, 4⟩).msg_type = "raw" ∧
    (recordOf hubState ⟨"oops", ParseResult.jsonError, 4⟩).hasParsedData = false ∧
    (recordOf hubState ⟨"oops", ParseResult.jsonError, 4⟩).message = "oops" ∧
    (handle_response hubState ⟨"oops", ParseResult.jsonError, 4⟩).recent_responses.getLast?
      = some (recordOf hubState ⟨"oops", ParseResult.jsonError, 4⟩) ∧
    (handle_response hubState ⟨"oops", ParseResult.jsonError, 4⟩).response_queues
      = hubState.response_queues.map
          (fun p =>
            (p.1, put_nowait p.2 ⟨"response", recordOf hubState ⟨"oops", ParseResult.jsonError, 4⟩⟩)) :=
  non_json_downgraded_to_raw hubState "oops" 4 (by decide)

/-- storeAndFanOut preserves the history invariant when the new record
carries id equal to the current history length (as _handle_response
always arranges). -/
theorem histInv_store (s : AppState) (rd : ResponseRecord) (E : List String)
    (h : HistInv s E) (hid : rd.id = s.recent_responses.length) :
    HistInv (storeAndFanOut s rd) (E ++ [rd.message]) := by
  obtain ⟨hmax, hlen, hmap, hids, hchain⟩ := h
  have hlen100 : s.recent_responses.length ≤ 100 := by omega
  by_cases hcap : E.length < 100
  · -- still under capacity: plain append, no eviction
    have hne : s.recent_responses.length = E.length := by omega
    have hnoev : ¬ s.max_responses < (s.recent_responses ++ [rd]).length := by
      rw [List.length_append, List.length_singleton]
      omega
    refine ⟨hmax, ?_, ?_, ?_, ?_⟩ <;>
      simp only [storeAndFanOut, if_neg hnoev]
    · rw [List.length_append, List.length_singleton, List.length_append,
        List.length_singleton]
      omega
    · rw [List.map_append, hmap, List.map_singleton]
      have d1 : E.length - 100 = 0 := by omega
      have d2 : (E ++ [rd.message]).length - 100 = 0 := by
        rw [List.length_append, List.length_singleton]; omega
      rw [d1, d2, List.drop_zero, List.drop_zero]
    · intro r hr
      rw [List.length_append, List.length_singleton]
      rcases List.mem_append.mp hr with hr | hr
      · exact le_trans (hids r hr) (Nat.le_succ _)
      · rw [List.mem_singleton.mp hr, hid]
        exact Nat.le_succ _
    · rw [List.chain'_append]
      refine ⟨hchain, List.chain'_singleton rd, ?_⟩
      intro x hx y hy
      rw [List.head?_cons, Option.mem_some_iff] at hy
      obtain ⟨hne', hx'⟩ := List.mem_getLast?_eq_getLast hx
      have hxmem : x ∈ s.recent_responses := hx' ▸ List.getLast_mem hne'
      rw [← hy, hid]
      exact hids x hxmem
  · -- at capacity: the oldest record is evicted
    have hfull : s.recent_responses.length = 100 := by omega
    have hev : s.max_responses < (s.recent_responses ++ [rd]).length := by
      rw [List.length_append, List.length_singleton]
      omega
    have h1 : 1 ≤ s.recent_responses.length := by omega
    have hdrop : (s.recent_responses ++ [rd]).drop 1
        = s.recent_responses.drop 1 ++ [rd] :=
      List.drop_append_of_le_length h1
    refine ⟨hmax, ?_, ?_, ?_, ?_⟩ <;>
      simp only [storeAndFanOut, if_pos hev, hdrop]
    · rw [List.length_append, List.length_singleton, List.length_drop,
        List.length_append, List.length_singleton]
      omega
    · have hl2 : (E ++ [rd.message]).length = E.length + 1 := by
        rw [List.length_append, List.length_singleton]
      rw [List.map_append, List.map_singleton, List.map_drop, hmap, List.drop_drop]
      have harith : E.length - 100 + 1 = (E ++ [rd.message]).length - 100 := by
        rw [hl2]
        omega
      rw [harith, List.drop_append_of_le_length (by rw [hl2]; omega)]
    · intro r hr
      rw [List.length_append, List.length_drop, List.length_singleton]
      rcases List.mem_append.mp hr with hr | hr
      · exact le_trans (hids r (List.mem_of_mem_drop hr)) (by omega)
      · rw [List.mem_singleton.mp hr, hid]
        omega
    · rw [List.chain'_append]
      refine ⟨by rw [List.drop_one]; exact hchain.tail, List.chain'_singleton rd, ?_⟩
      intro x hx y hy
      rw [List.head?_cons, Option.mem_some_iff] at hy
      obtain ⟨hne', hx'⟩ := List.mem_getLast?_eq_getLast hx
      have hxmem : x ∈ s.recent_responses :=
        List.mem_of_mem_drop (hx' ▸ List.getLast_mem hne')
      rw [← hy, hid]
      exact hids x hxmem

/-- One _handle_response step preserves the history invariant, the
coupled raw-text list growing exactly by the non-heartbeat messages. -/
theorem histInv_step (s : AppState) (E : List String) (ev : InboundEvent)
    (h : HistInv s E) :
    HistInv (handle_response s ev)
      (E ++ (if isHeartbeat ev then [] else [ev.raw])) := by
  by_cases hb : isHeartbeat ev
  · rw [handle_response_heartbeat s ev hb, if_pos hb, List.append_nil]
    exact h
  · rw [if_neg hb]
    obtain ⟨s2, heq, hr, hq, hm⟩ :=
      handle_response_non_heartbeat s ev (Bool.not_eq_true _ ▸ hb)
    have h2 : HistInv s2 E := by
      unfold HistInv at h ⊢
      rw [hr, hm]
      exact h
    have hid : (recordOf s ev).id = s2.recent_responses.length := by
      rw [recordOf_id, hr]
    have hstore := histInv_store s2 (recordOf s ev) E h2 hid
    rw [heq, ← recordOf_message s ev]
    exact hstore

/-- Folding _handle_response over a message sequence preserves the
history invariant. -/
theorem histInv_fold (evs : List InboundEvent) (s : AppState) (E : List String)
    (h : HistInv s E) : HistInv (ingestAll s evs) (E ++ effectiveRaws evs) := by
  induction evs generalizing s E with
  | nil =>
    simpa [ingestAll, effectiveRaws] using h
  | cons ev evs ih =>
    have hstep := histInv_step s E ev h
    have htail := ih (handle_response s ev)
      (E ++ (if isHeartbeat ev then [] else [ev.raw])) hstep
    have heff : effectiveRaws (ev :: evs)
        = (if isHeartbeat ev then [] else [ev.raw]) ++ effectiveRaws evs := by
      by_cases hb : isHeartbeat ev <;> simp [effectiveRaws, List.filter_cons, hb]
    show HistInv (ingestAll (handle_response s ev) evs) _
    rw [heff, ← List.append_assoc]
    exact htail

/-- C1 (amended): starting from the fresh facade, after any sequence of
ingested messages the history holds at most 100 records; its contents
are exactly the raw texts of the most recent 100 stored (non-heartbeat)
messages in arrival order, the oldest having been evicted first; and
recent(100) returns exactly those records.  The carried record ids are
non-decreasing, but (contrary to the claim as stated) not strictly
increasing once more than 101 messages have been stored: ids are the
history length at creation time, which saturates at the capacity. -/
theorem history_ring_bounded_fifo (evs : List InboundEvent) :
    (ingestAll initialAppState evs).recent_responses.length ≤ 100 ∧
    (ingestAll initialAppState evs).recent_responses.map (·.message)
      = (effectiveRaws evs).drop ((effectiveRaws evs).length - 100) ∧
    List.Chain' (fun a b => a.id ≤ b.id)
      (ingestAll initialAppState evs).recent_responses ∧
    get_recent_responses (ingestAll initialAppState evs) 100
      = (ingestAll initialAppState evs).recent_responses := by
  have h0 : HistInv initialAppState [] := by
    refine ⟨rfl, rfl, rfl, ?_, ?_⟩ <;> simp [initialAppState]
  have h := histInv_fold evs initialAppState [] h0
  rw [List.nil_append] at h
  obtain ⟨hmax, hlen, hmap, hids, hchain⟩ := h
  have hb : (ingestAll initialAppState evs).recent_responses.length ≤ 100 := by
    omega
  refine ⟨hb, hmap, hchain, ?_⟩
  unfold get_recent_responses
  rw [if_neg (by omega : ¬ (100 : Nat) = 0)]
  have hz : (ingestAll initialAppState evs).recent_responses.length - 100 = 0 := by
    omega
  rw [hz, List.drop_zero]

/-- A record list whose mapped ids end in 100, 100 is not strictly
increasing on ids. -/
theorem ids_clash_aux (l : List ResponseRecord)
    (hch : List.Chain' (fun a b : ResponseRecord => a.id < b.id) l)
    (hL : l.map (fun r : ResponseRecord => r.id)
      = (List.range 98).map (fun i => i + 2) ++ [100, 100]) : False := by
  have hmapped : List.Chain' (fun a b : Nat => a < b)
      (l.map (fun r : ResponseRecord => r.id)) :=
    (List.chain'_map (R := fun a b : Nat => a < b) (fun r : ResponseRecord => r.id)).mpr hch
  rw [hL] at hmapped
  exact Nat.lt_irrefl 100 (List.chain'_cons.mp ((List.chain'_append.mp hmapped).2.1)).1

set_option maxRecDepth 100000 in
/-- Counterexample to C1 as stated: after 102 ingested (non-heartbeat)
messages the ids carried by the records returned by recent(100) are not
strictly increasing — the record id is the history length at creation
time, so once the ring is full every new record gets id 100 and the last
two returned records share it. -/
theorem history_ids_not_strictly_increasing :
    ¬ List.Chain' (fun a b => a.id < b.id)
        (get_recent_responses
          (ingestAll initialAppState
            (List.replicate 102 ⟨"m", ParseResult.ok "t" none, 0⟩)) 100) := by
  intro hch
  exact ids_clash_aux _ hch (by rfl)

/-- C9 (amended): for every positive limit, recent(limit) returns the
suffix of min(limit, history length) most recent records in arrival
order (hence at most limit records); recent(0), however, returns the
entire history, because the Python slice index -0 is 0. -/
theorem recent_limit_behavior :
    (∀ (s : AppState) (limit : Nat), 1 ≤ limit →
      (get_recent_responses s limit).length = min limit s.recent_responses.length ∧
      (get_recent_responses s limit) <:+ s.recent_responses) ∧
    (∀ s : AppState, get_recent_responses s 0 = s.recent_responses) := by
  refine ⟨fun s limit h => ?_, fun s => by simp [get_recent_responses]⟩
  unfold get_recent_responses
  rw [if_neg (by omega : ¬ limit = 0)]
  refine ⟨?_, List.drop_suffix _ _⟩
  rw [List.length_drop]
  omega

/-- Witness for C9: recent(2) on a three-record history returns the
two-record suffix. -/
theorem recent_limit_witness :
    (get_recent_responses threeState 2).length
      = min 2 threeState.recent_responses.length ∧
    (get_recent_responses threeState 2) <:+ threeState.recent_responses :=
  recent_limit_behavior.1 threeState 2 (by decide)

/-- Counterexample to C9 as stated: on a three-record history,
recent(0) returns all three records instead of none. -/
theorem recent_zero_returns_everything :
    (get_recent_responses threeState 0).length = 3 ∧
    ¬ (get_recent_responses threeState 0).length ≤ 0 := by
  decide

end AutoGLMUI
